import Mathlib

/-!
# Verification of the Pixie AI service configuration and lifecycle boundary

Shallow embedding of `pixie-ai-service/config.py` and `pixie-ai-service/main.py`:
the typed `Settings` model loaded from environment variables, the derived
properties `is_production` and `allowed_origins_list`, module-level startup
(settings construction, logging configuration, application construction), the
two route handlers, the global exception handler, and the lifespan manager.
-/

set_option autoImplicit false

namespace Pixie

/-! ## Python string primitives used by the source -/

/-- The six ASCII whitespace characters stripped by the Python `str.strip()` method. -/
def isPyWhitespace (c : Char) : Bool :=
  c = ' ' || c = '\t' || c = '\n' || c = '\r' || c = '\x0b' || c = '\x0c'

/-- Python `str.strip()`: remove leading and trailing whitespace. -/
def pyStrip (s : String) : String :=
  String.mk (((s.data.dropWhile isPyWhitespace).reverse.dropWhile isPyWhitespace).reverse)

/-- Python `str.lower()` (ASCII case mapping). -/
def pyLower (s : String) : String :=
  String.mk (s.data.map Char.toLower)

/-- Python `str.upper()` (ASCII case mapping). -/
def pyUpper (s : String) : String :=
  String.mk (s.data.map Char.toUpper)

/-- Python `str.split(",")`: split on each comma, keeping empty pieces, so the
empty string yields `[""]`. -/
def pySplitComma (s : String) : List String :=
  (s.data.splitOn ',').map String.mk

/-! ## `config.py`: the `Settings` model -/

/-- The `Settings` pydantic model of `config.py` (lines 10-43): one field per
declared attribute, with the compiled-in defaults. `qdrant_port` and `port`
are the two non-string typed fields. -/
structure Settings where
  environment : String := "development"
  log_level : String := "INFO"
  openai_api_key : String := ""
  anthropic_api_key : Option String := none
  qdrant_host : String := "localhost"
  qdrant_port : Int := 6333
  qdrant_api_key : Option String := none
  database_url : Option String := none
  redis_url : String := "redis://localhost:6379/0"
  port : Int := 8000
  allowed_origins : String := "http://localhost:3000"
  internal_api_key : String := ""
deriving DecidableEq, Repr

/-- `Settings.is_production` (config.py lines 45-48):
`self.environment.lower() == "production"`. -/
def Settings.is_production (s : Settings) : Bool :=
  pyLower s.environment == "production"

/-- `Settings.allowed_origins_list` (config.py lines 50-53):
`[origin.strip() for origin in self.allowed_origins.split(",")]`. -/
def Settings.allowed_origins_list (s : Settings) : List String :=
  (pySplitComma s.allowed_origins).map pyStrip

/-- The `Settings` value with every field at its compiled-in default
(what `Settings()` yields with no environment overrides and no `.env` file). -/
def defaultSettings : Settings := {}

/-! ## Environment loading

Pydantic `BaseSettings` with `case_sensitive=False` and `env_file=".env"`:
each field takes its value from the process environment (variable name matched
case-insensitively), else from the `.env` file, else the compiled-in default.
String fields accept any raw string; the two `int` fields coerce the raw
string and fail validation when coercion fails, and construction collects
every failed field into one validation error. -/

/-- A set of environment bindings (name, raw value). -/
abbrev Env := List (String × String)

/-- Case-insensitive environment lookup: the binding whose lower-cased name is
the field name (pydantic with `case_sensitive=False`). -/
def envLookup (env : Env) (field : String) : Option String :=
  (env.find? (fun kv => pyLower kv.1 == field)).map (fun kv => kv.2)

/-- Decimal digits to a natural number. -/
def decDigitsToNat (l : List Char) : Nat :=
  l.foldl (fun a c => a * 10 + (c.toNat - '0'.toNat)) 0

/-- Pydantic lax coercion of a raw environment string to `int`: surrounding
whitespace stripped, an optional sign followed by at least one decimal digit;
anything else fails. -/
def parseEnvInt (raw : String) : Option Int :=
  let cs := ((raw.data.dropWhile isPyWhitespace).reverse.dropWhile isPyWhitespace).reverse
  match cs with
  | '-' :: ds =>
      if ds ≠ [] ∧ ds.all Char.isDigit then some (-(decDigitsToNat ds : Int)) else none
  | '+' :: ds =>
      if ds ≠ [] ∧ ds.all Char.isDigit then some (decDigitsToNat ds : Int) else none
  | ds =>
      if ds ≠ [] ∧ ds.all Char.isDigit then some (decDigitsToNat ds : Int) else none

/-- One entry of a pydantic validation error: the offending field and the
invalid raw input value. -/
structure FieldError where
  field : String
  input : String
deriving DecidableEq, Repr

/-- The raw source value for one field: the process environment wins over the
`.env` file; `none` when neither binds the field. -/
def rawValue (env envFile : Env) (f : String) : Option String :=
  match envLookup env f with
  | some v => some v
  | none => envLookup envFile f

/-- Validation errors contributed by one `int` field: a raw value that fails
integer coercion yields one error naming the field and the value. -/
def intFieldErrs (env envFile : Env) (f : String) : List FieldError :=
  match rawValue env envFile f with
  | some v => if (parseEnvInt v).isNone then [⟨f, v⟩] else []
  | none => []

/-- All validation errors of a `Settings()` construction: the two `int` fields
`qdrant_port` and `port` are the only fields whose coercion can fail (every
other field is `str` or `Optional[str]`). -/
def validationErrs (env envFile : Env) : List FieldError :=
  intFieldErrs env envFile "qdrant_port" ++ intFieldErrs env envFile "port"

/-- `Settings()` (config.py line 56): build the settings from the process
environment and the optional `.env` file, environment winning over the file
winning over the default. Coercion failure of a typed field fails the whole
construction with a validation error naming each offending field and its raw
value. -/
def loadSettings (env envFile : Env) : Except (List FieldError) Settings :=
  if validationErrs env envFile ≠ [] then
    Except.error (validationErrs env envFile)
  else
    Except.ok
      { environment := (rawValue env envFile "environment").getD "development"
        log_level := (rawValue env envFile "log_level").getD "INFO"
        openai_api_key := (rawValue env envFile "openai_api_key").getD ""
        anthropic_api_key := rawValue env envFile "anthropic_api_key"
        qdrant_host := (rawValue env envFile "qdrant_host").getD "localhost"
        qdrant_port :=
          match rawValue env envFile "qdrant_port" with
          | some v => (parseEnvInt v).getD 6333
          | none => 6333
        qdrant_api_key := rawValue env envFile "qdrant_api_key"
        database_url := rawValue env envFile "database_url"
        redis_url := (rawValue env envFile "redis_url").getD "redis://localhost:6379/0"
        port :=
          match rawValue env envFile "port" with
          | some v => (parseEnvInt v).getD 8000
          | none => 8000
        allowed_origins := (rawValue env envFile "allowed_origins").getD "http://localhost:3000"
        internal_api_key := (rawValue env envFile "internal_api_key").getD "" }

/-! ## `main.py`: logging setup, application, routes, error boundary -/

/-- The level attributes of the Python `logging` module, as read by
`getattr(logging, settings.log_level.upper())` (main.py line 18): the name of
a level attribute maps to its numeric level; `getattr` on any other name
raises `AttributeError`. -/
def getLoggingLevelAttr (name : String) : Option Int :=
  match name with
  | "CRITICAL" => some 50
  | "FATAL" => some 50
  | "ERROR" => some 40
  | "WARNING" => some 30
  | "WARN" => some 30
  | "INFO" => some 20
  | "DEBUG" => some 10
  | "NOTSET" => some 0
  | _ => none

/-- `logging.basicConfig(level=getattr(logging, settings.log_level.upper()), ...)`
(main.py lines 17-21): succeeds with the resolved numeric level, or fails with
`AttributeError` when the upper-cased level name is not a `logging` attribute. -/
def setupLogging (s : Settings) : Option Int :=
  getLoggingLevelAttr (pyUpper s.log_level)

/-- A structured log record: level name, message, and the `extra` key/value
context passed to the logger. -/
structure LogRecord where
  level : String
  message : String
  extra : List (String × String) := []
deriving DecidableEq, Repr

/-- A JSON scalar appearing in a response body. -/
inductive JVal where
  | str (s : String)
  | bool (b : Bool)
  | int (n : Int)
deriving DecidableEq, Repr

/-- A flat JSON object: ordered fields of scalars (every body produced by the
service is of this shape). -/
abbrev JObj := List (String × JVal)

/-- An HTTP response: status code and JSON body. -/
structure Response where
  status : Nat
  body : JObj
deriving DecidableEq, Repr

/-- HTTP methods admitted by the CORS policy of the service. -/
inductive Method where
  | GET
  | POST
  | PUT
  | DELETE
deriving DecidableEq, Repr

/-- Printed method name, as interpolated into the log record of the error handler. -/
def Method.name : Method → String
  | .GET => "GET"
  | .POST => "POST"
  | .PUT => "PUT"
  | .DELETE => "DELETE"

/-- A Python exception reaching the error boundary: its type name and message. -/
structure PyExc where
  typeName : String
  message : String
deriving DecidableEq, Repr

/-- An inbound request. `fault` simulates a route raising an unhandled
exception while executing this request (a forced fault, as in the testable
properties of the spec); the two real handlers never raise. -/
structure Request where
  method : Method
  path : String
  fault : Option PyExc := none
deriving DecidableEq, Repr

/-- The application object `app = FastAPI(...)` (main.py lines 42-47), holding
the metadata and the settings it was built over. -/
structure App where
  title : String
  version : String
  settings : Settings
deriving DecidableEq, Repr

/-- `root` (main.py lines 59-62): `GET /` body. -/
def rootHandler : Response :=
  ⟨200, [("service", .str "pixie-ai"), ("status", .str "running")]⟩

/-- `health_check` (main.py lines 65-76): `GET /health` body. -/
def health_check (s : Settings) : Response :=
  ⟨200, [("status", .str "healthy"), ("version", .str "0.1.0"),
         ("environment", .str s.environment)]⟩

/-- The default FastAPI response for an unmatched path. -/
def notFoundResponse : Response :=
  ⟨404, [("detail", .str "Not Found")]⟩

/-- `global_exception_handler` (main.py lines 79-101): logs an error-level
record naming the exception type with the request path and method, and
returns the fixed 500 response. -/
def global_exception_handler (req : Request) (exc : PyExc) : LogRecord × Response :=
  (⟨"ERROR", "Unhandled exception: " ++ exc.typeName,
     [("path", req.path), ("method", req.method.name)]⟩,
   ⟨500, [("success", .bool false), ("error", .str "internal_error"),
          ("message", .str "An unexpected error occurred. Please try again.")]⟩)

/-! ## Request dispatch and server state -/

/-- Process state visible to request handling: the settings and the log so
far. -/
structure ServerState where
  settings : Settings
  log : List LogRecord := []
deriving DecidableEq, Repr

/-- Dispatch one request: a route that raises is recovered by the global
exception handler; otherwise the matching route handler answers, and any
other path gets the framework default not-found response. No handler writes to
the settings. -/
def handleRequest (st : ServerState) (req : Request) : ServerState × Response :=
  match req.fault with
  | some exc =>
      let (lr, resp) := global_exception_handler req exc
      ({ st with log := st.log ++ [lr] }, resp)
  | none =>
      if req.method = .GET ∧ req.path = "/" then (st, rootHandler)
      else if req.method = .GET ∧ req.path = "/health" then (st, health_check st.settings)
      else (st, notFoundResponse)

/-- Handle a sequence of requests, threading the server state. -/
def runRequests (st : ServerState) (reqs : List Request) : ServerState :=
  reqs.foldl (fun s r => (handleRequest s r).1) st

/-! ## Process startup -/

/-- Why module initialization aborted before the app could serve. -/
inductive StartupFailure where
  | validationError (errs : List FieldError)
  | attributeError (name : String)
deriving DecidableEq, Repr

/-- Module initialization order of `main.py`: import `config` (running
`settings = Settings()`, config.py line 56), then configure logging
(main.py lines 17-21), then build the application (main.py lines 42-47).
A failure at either step aborts before an application object exists. -/
def startProcess (env envFile : Env) : Except StartupFailure App :=
  match loadSettings env envFile with
  | .error errs => .error (.validationError errs)
  | .ok s =>
      match setupLogging s with
      | none => .error (.attributeError (pyUpper s.log_level))
      | some _ => .ok { title := "Pixie AI Service", version := "0.1.0", settings := s }

/-! ## The lifespan manager -/

/-- The startup log records of `lifespan` (main.py lines 29-34): one
structured record carrying `environment` and `port`, then the two
human-readable lines. -/
def startupRecords (s : Settings) : List LogRecord :=
  [⟨"INFO", "Starting Pixie AI Service",
     [("environment", s.environment), ("port", toString s.port)]⟩,
   ⟨"INFO", "Environment: " ++ s.environment, []⟩,
   ⟨"INFO", "Log Level: " ++ s.log_level, []⟩]

/-- The single shutdown record of `lifespan` (main.py line 39). -/
def shutdownRecord : LogRecord :=
  ⟨"INFO", "Shutting down Pixie AI Service", []⟩

/-- Async-context-manager semantics of a generator that runs `pre` before its
single `yield` and `post` after it, with `hasFinally` recording whether the
yield sits inside a `try/finally`. Returns the records emitted on the given
path: if the pre-yield code raises at its first action nothing is emitted and
`post` never runs; if the guarded body raises, the exception is thrown into
the generator at the yield, and `post` runs only under a `finally`; on a
normal exit both run. -/
def runGeneratorCM (pre post : List LogRecord) (hasFinally : Bool)
    (startupRaises bodyRaises : Bool) : List LogRecord :=
  if startupRaises then []
  else if bodyRaises then pre ++ (if hasFinally then post else [])
  else pre ++ post

/-- `lifespan` (main.py lines 25-39): startup logging, `yield`, shutdown
logging, with no `try/finally` around the yield. `startupRaises` models the
first startup logging call raising; `bodyRaises` models the serving loop
raising while the generator is suspended at the yield. -/
def lifespan (s : Settings) (startupRaises bodyRaises : Bool) : List LogRecord :=
  runGeneratorCM (startupRecords s) [shutdownRecord] false startupRaises bodyRaises

/-! ## Helper lemmas -/

lemma msg_environment_ne (e : String) :
    "Environment: " ++ e ≠ "Shutting down Pixie AI Service" := by
  intro h
  have h2 := congrArg String.data h
  simp [String.data_append] at h2

lemma msg_log_level_ne (l : String) :
    "Log Level: " ++ l ≠ "Shutting down Pixie AI Service" := by
  intro h
  have h2 := congrArg String.data h
  simp [String.data_append] at h2

lemma shutdownRecord_not_mem_startupRecords (s : Settings) :
    shutdownRecord ∉ startupRecords s := by
  intro h
  simp only [startupRecords, List.mem_cons, List.not_mem_nil, or_false] at h
  rcases h with h | h | h
  · have h2 := congrArg LogRecord.message h
    simp [shutdownRecord] at h2
  · have h2 := congrArg LogRecord.message h
    simp only [shutdownRecord] at h2
    exact msg_environment_ne s.environment h2.symm
  · have h2 := congrArg LogRecord.message h
    simp only [shutdownRecord] at h2
    exact msg_log_level_ne s.log_level h2.symm

lemma count_shutdown_startupRecords (s : Settings) :
    (startupRecords s).count shutdownRecord = 0 := by
  rw [List.count_eq_zero]
  exact shutdownRecord_not_mem_startupRecords s

lemma handleRequest_settings (st : ServerState) (r : Request) :
    ((handleRequest st r).1).settings = st.settings := by
  cases r with
  | mk m p f =>
    cases f with
    | some exc => rfl
    | none =>
        simp only [handleRequest]
        split
        · rfl
        · split
          · rfl
          · rfl

lemma runRequests_settings (st : ServerState) (reqs : List Request) :
    (runRequests st reqs).settings = st.settings := by
  induction reqs generalizing st with
  | nil => rfl
  | cons r rs ih =>
      show (runRequests (handleRequest st r).1 rs).settings = st.settings
      rw [ih]
      exact handleRequest_settings st r

lemma envLookup_nil (f : String) : envLookup [] f = none := rfl

lemma rawValue_nil (env : Env) (f : String) :
    rawValue env [] f = envLookup env f := by
  cases h : envLookup env f with
  | none =>
      simp only [rawValue]
      rw [h, envLookup_nil]
  | some v =>
      simp only [rawValue]
      rw [h]

/-! ## Claim theorems -/

/-- Claim C1: every exception raised during route execution and recovered at
the global exception handler yields a response of status 500 whose body is
exactly the fixed object with `success` false, `error` `"internal_error"` and
`message` `"An unexpected error occurred. Please try again."`. The body is a
constant that does not depend on the exception in any way, so no exception
message, type name, stack frame or internal identifier can occur in it,
regardless of which exception was raised. -/
theorem errorBoundary_fixed_response (st : ServerState) (req : Request) (exc : PyExc)
    (h : req.fault = some exc) :
    (handleRequest st req).2 =
      ⟨500, [("success", JVal.bool false), ("error", JVal.str "internal_error"),
             ("message", JVal.str "An unexpected error occurred. Please try again.")]⟩ := by
  simp [handleRequest, h, global_exception_handler]

/-- Witness for C1: a concrete `ValueError` carrying a secret message is
answered with the fixed 500 body. -/
theorem errorBoundary_fixed_response_witness :
    (handleRequest ⟨defaultSettings, []⟩
        ⟨Method.POST, "/tasks", some ⟨"ValueError", "secret database detail"⟩⟩).2 =
      ⟨500, [("success", JVal.bool false), ("error", JVal.str "internal_error"),
             ("message", JVal.str "An unexpected error occurred. Please try again.")]⟩ :=
  errorBoundary_fixed_response ⟨defaultSettings, []⟩
    ⟨Method.POST, "/tasks", some ⟨"ValueError", "secret database detail"⟩⟩
    ⟨"ValueError", "secret database detail"⟩ rfl

/-- Counterexample to claim C2 as stated: the `lifespan` generator has no
`try/finally` around its `yield`, so on the exit path where the startup action
raises (and likewise where the serving loop raises) the shutdown action is not
executed and zero shutdown log records are emitted, not one. -/
theorem lifespan_shutdown_skipped :
    (lifespan defaultSettings true false).count shutdownRecord = 0 ∧
    (lifespan defaultSettings false true).count shutdownRecord = 0 := by
  constructor
  · rfl
  · rfl

/-- Claim C2 (amended): the lifespan manager emits its startup records before
the serving loop and its shutdown record after it; exactly one shutdown
record is emitted when startup and the serving loop complete normally, and
none when either raises, since the generator has no `try/finally` around its
`yield`. -/
theorem lifespan_shutdown_on_clean_exit_only (s : Settings) (startupRaises bodyRaises : Bool) :
    (lifespan s startupRaises bodyRaises).count shutdownRecord
        = (if startupRaises || bodyRaises then 0 else 1) ∧
    lifespan s false false = startupRecords s ++ [shutdownRecord] := by
  constructor
  · cases startupRaises with
    | true => rfl
    | false =>
        cases bodyRaises with
        | true =>
            show ((startupRecords s) ++ []).count shutdownRecord = (0 : Nat)
            rw [List.append_nil]
            exact count_shutdown_startupRecords s
        | false =>
            show ((startupRecords s) ++ [shutdownRecord]).count shutdownRecord = (1 : Nat)
            rw [List.count_append, count_shutdown_startupRecords]
            decide
  · rfl

/-- Claim C3: when the environment binds `port` (case-insensitively) to a raw
value that fails integer coercion, `Settings()` fails with a validation error
containing an entry naming the field `port` and the invalid raw value, and
process startup aborts: `startProcess` is an error, so no application object
exists and a serving state is never reached. -/
theorem malformed_port_aborts_startup (env envFile : Env) (v : String)
    (hv : envLookup env "port" = some v) (hp : parseEnvInt v = none) :
    ∃ errs, loadSettings env envFile = Except.error errs ∧
      (⟨"port", v⟩ : FieldError) ∈ errs ∧
      startProcess env envFile = Except.error (StartupFailure.validationError errs) := by
  have hraw : rawValue env envFile "port" = some v := by
    simp only [rawValue]
    rw [hv]
  have herr : intFieldErrs env envFile "port" = [⟨"port", v⟩] := by
    simp [intFieldErrs, hraw, hp]
  have hne : validationErrs env envFile ≠ [] := by
    simp [validationErrs, herr]
  refine ⟨validationErrs env envFile, ?_, ?_, ?_⟩
  · simp only [loadSettings]
    rw [if_pos hne]
  · simp [validationErrs, herr]
  · simp only [startProcess, loadSettings]
    rw [if_pos hne]

/-- Witness for C3: `PORT=notanumber` fails the load with an error naming
`port` and `"notanumber"`, and startup aborts. -/
theorem malformed_port_aborts_startup_witness :
    ∃ errs, loadSettings [("PORT", "notanumber")] [] = Except.error errs ∧
      (⟨"port", "notanumber"⟩ : FieldError) ∈ errs ∧
      startProcess [("PORT", "notanumber")] []
        = Except.error (StartupFailure.validationError errs) :=
  malformed_port_aborts_startup [("PORT", "notanumber")] [] "notanumber" rfl rfl

/-- Claim C4: `is_production` holds exactly when the lower-cased environment
string equals `"production"` (case-insensitive equality, no trimming):
`"Production"` and `"PRODUCTION"` yield true, `"production "` (trailing
space) and `"staging"` yield false. -/
theorem is_production_characterization :
    (∀ s : Settings, s.is_production = true ↔ pyLower s.environment = "production") ∧
    ({ defaultSettings with environment := "Production" } : Settings).is_production = true ∧
    ({ defaultSettings with environment := "PRODUCTION" } : Settings).is_production = true ∧
    ({ defaultSettings with environment := "production " } : Settings).is_production = false ∧
    ({ defaultSettings with environment := "staging" } : Settings).is_production = false := by
  refine ⟨fun s => ?_, by rfl, by rfl, by rfl, by rfl⟩
  simp [Settings.is_production]

/-- Claim C5: `allowed_origins_list` is the comma-split of `allowed_origins`
with each entry stripped of surrounding whitespace, order preserved and
duplicates kept; on `" http://a.com ,http://b.com"` it is exactly
`["http://a.com", "http://b.com"]`, and a repeated origin stays repeated. -/
theorem allowed_origins_list_characterization :
    (∀ s : Settings,
      s.allowed_origins_list = (pySplitComma s.allowed_origins).map pyStrip) ∧
    ({ defaultSettings with
        allowed_origins := " http://a.com ,http://b.com" } : Settings).allowed_origins_list
      = ["http://a.com", "http://b.com"] ∧
    ({ defaultSettings with
        allowed_origins := "http://a.com,http://b.com,http://a.com" } : Settings).allowed_origins_list
      = ["http://a.com", "http://b.com", "http://a.com"] :=
  ⟨fun _ => rfl, by rfl, by rfl⟩

/-- Claim C6: a successful load (with no `.env` file) gives every field the
case-insensitively matched environment override when present (int fields via
integer coercion of the raw value) and the compiled-in default otherwise;
with no overrides the load succeeds with exactly the compiled-in defaults,
`anthropic_api_key`, `qdrant_api_key` and `database_url` absent. -/
theorem loadSettings_overrides_and_defaults (env : Env) (s : Settings)
    (h : loadSettings env [] = Except.ok s) :
    s.environment = (envLookup env "environment").getD "development" ∧
    s.log_level = (envLookup env "log_level").getD "INFO" ∧
    s.openai_api_key = (envLookup env "openai_api_key").getD "" ∧
    s.anthropic_api_key = envLookup env "anthropic_api_key" ∧
    s.qdrant_host = (envLookup env "qdrant_host").getD "localhost" ∧
    (∀ v, envLookup env "qdrant_port" = some v → parseEnvInt v = some s.qdrant_port) ∧
    (envLookup env "qdrant_port" = none → s.qdrant_port = 6333) ∧
    s.qdrant_api_key = envLookup env "qdrant_api_key" ∧
    s.database_url = envLookup env "database_url" ∧
    s.redis_url = (envLookup env "redis_url").getD "redis://localhost:6379/0" ∧
    (∀ v, envLookup env "port" = some v → parseEnvInt v = some s.port) ∧
    (envLookup env "port" = none → s.port = 8000) ∧
    s.allowed_origins = (envLookup env "allowed_origins").getD "http://localhost:3000" ∧
    s.internal_api_key = (envLookup env "internal_api_key").getD "" ∧
    loadSettings [] [] = Except.ok defaultSettings ∧
    defaultSettings = { environment := "development", log_level := "INFO",
                        openai_api_key := "", anthropic_api_key := none,
                        qdrant_host := "localhost", qdrant_port := 6333,
                        qdrant_api_key := none, database_url := none,
                        redis_url := "redis://localhost:6379/0", port := 8000,
                        allowed_origins := "http://localhost:3000",
                        internal_api_key := "" } := by
  by_cases hve : validationErrs env [] = []
  · simp only [loadSettings] at h
    rw [if_neg (not_not_intro hve)] at h
    injection h with hs
    subst hs
    simp only [validationErrs] at hve
    have hq0 : intFieldErrs env [] "qdrant_port" = [] := (List.append_eq_nil.mp hve).1
    have hp0 : intFieldErrs env [] "port" = [] := (List.append_eq_nil.mp hve).2
    refine ⟨by simp [rawValue_nil], by simp [rawValue_nil], by simp [rawValue_nil],
      by simp [rawValue_nil], by simp [rawValue_nil], ?_, ?_,
      by simp [rawValue_nil], by simp [rawValue_nil], by simp [rawValue_nil],
      ?_, ?_, by simp [rawValue_nil], by simp [rawValue_nil], by rfl, by rfl⟩
    · intro v hv
      have hr : rawValue env [] "qdrant_port" = some v := by
        rw [rawValue_nil]; exact hv
      cases hpe : parseEnvInt v with
      | none => exact absurd hq0 (by simp [intFieldErrs, hr, hpe])
      | some n => simp [hr, hpe]
    · intro hv
      have hr : rawValue env [] "qdrant_port" = none := by
        rw [rawValue_nil]; exact hv
      simp [hr]
    · intro v hv
      have hr : rawValue env [] "port" = some v := by
        rw [rawValue_nil]; exact hv
      cases hpe : parseEnvInt v with
      | none => exact absurd hp0 (by simp [intFieldErrs, hr, hpe])
      | some n => simp [hr, hpe]
    · intro hv
      have hr : rawValue env [] "port" = none := by
        rw [rawValue_nil]; exact hv
      simp [hr]
  · simp only [loadSettings] at h
    rw [if_pos hve] at h
    exact absurd h (by simp)

/-- Witness for C6: with `Environment=staging` and `PORT=9001` set, the loaded
environment field is the override. -/
theorem loadSettings_overrides_and_defaults_witness :
    ({ defaultSettings with environment := "staging", port := 9001 } : Settings).environment
      = (envLookup [("Environment", "staging"), ("PORT", "9001")] "environment").getD
          "development" :=
  (loadSettings_overrides_and_defaults [("Environment", "staging"), ("PORT", "9001")]
      { defaultSettings with environment := "staging", port := 9001 } (by rfl)).1

/-- Claim C7: a non-faulting `GET /` request is answered with status 200 and
the body with `service` `"pixie-ai"` and `status` `"running"`, for every
server state (hence independently of the settings) and every such request. -/
theorem root_route_response (st : ServerState) (req : Request)
    (hm : req.method = Method.GET) (hp : req.path = "/") (hf : req.fault = none) :
    handleRequest st req =
      (st, ⟨200, [("service", JVal.str "pixie-ai"), ("status", JVal.str "running")]⟩) := by
  simp [handleRequest, hf, hm, hp, rootHandler]

/-- Witness for C7: the concrete `GET /` request on the default state. -/
theorem root_route_response_witness :
    handleRequest ⟨defaultSettings, []⟩ ⟨Method.GET, "/", none⟩ =
      (⟨defaultSettings, []⟩,
       ⟨200, [("service", JVal.str "pixie-ai"), ("status", JVal.str "running")]⟩) :=
  root_route_response ⟨defaultSettings, []⟩ ⟨Method.GET, "/", none⟩ rfl rfl rfl

/-- Claim C8: a non-faulting `GET /health` request is answered with status 200
and a body whose `status` field is `"healthy"`, whose `version` field is the
compiled service version string `"0.1.0"`, and whose `environment` field is
the current value of `Settings.environment`. -/
theorem health_route_response (st : ServerState) (req : Request)
    (hm : req.method = Method.GET) (hp : req.path = "/health") (hf : req.fault = none) :
    handleRequest st req =
      (st, ⟨200, [("status", JVal.str "healthy"), ("version", JVal.str "0.1.0"),
                  ("environment", JVal.str st.settings.environment)]⟩) := by
  simp [handleRequest, hf, hm, hp, health_check]

/-- Witness for C8: `GET /health` against settings with environment
`"staging"` reports that environment. -/
theorem health_route_response_witness :
    handleRequest ⟨{ defaultSettings with environment := "staging" }, []⟩
        ⟨Method.GET, "/health", none⟩ =
      (⟨{ defaultSettings with environment := "staging" }, []⟩,
       ⟨200, [("status", JVal.str "healthy"), ("version", JVal.str "0.1.0"),
              ("environment", JVal.str "staging")]⟩) :=
  health_route_response ⟨{ defaultSettings with environment := "staging" }, []⟩
    ⟨Method.GET, "/health", none⟩ rfl rfl rfl

/-- Claim C9: a started process carries exactly the settings produced by the
single load at startup (settings exist before the application object), and no
sequence of handled requests — routes, health checks, or faults recovered by
the error boundary — ever changes the settings: after any request sequence the
observed settings equal the value produced at load time. -/
theorem settings_loaded_once_and_immutable (env envFile : Env) (a : App)
    (h : startProcess env envFile = Except.ok a) :
    loadSettings env envFile = Except.ok a.settings ∧
    ∀ (st : ServerState) (reqs : List Request),
      st.settings = a.settings → (runRequests st reqs).settings = a.settings := by
  constructor
  · cases hl : loadSettings env envFile with
    | error e => simp [startProcess, hl] at h
    | ok s =>
        cases hsl : setupLogging s with
        | none => simp [startProcess, hl, hsl] at h
        | some n =>
            simp only [startProcess, hl, hsl] at h
            injection h with ha
            rw [← ha]
  · intro st reqs hst
    rw [runRequests_settings, hst]

/-- Witness for C9: three concrete requests (root, health, and a faulting
request) leave the default-loaded settings unchanged. -/
theorem settings_loaded_once_and_immutable_witness :
    (runRequests ⟨defaultSettings, []⟩
        [⟨Method.GET, "/", none⟩, ⟨Method.GET, "/health", none⟩,
         ⟨Method.POST, "/tasks", some ⟨"RuntimeError", "boom"⟩⟩]).settings
      = ({ title := "Pixie AI Service", version := "0.1.0",
           settings := defaultSettings } : App).settings :=
  (settings_loaded_once_and_immutable [] [] _ rfl).2 _ _ rfl

/-- Claim C10: after a successful configuration load, module initialization
raises `AttributeError` in the logging setup — before the application object
is created, so the server never starts — exactly when the upper-cased
`log_level` is not a level attribute of the `logging` module; when it is a
valid level name the startup step passes and the application is built. -/
theorem invalid_log_level_aborts (env envFile : Env) (s : Settings)
    (h : loadSettings env envFile = Except.ok s) :
    (getLoggingLevelAttr (pyUpper s.log_level) = none →
      startProcess env envFile
        = Except.error (StartupFailure.attributeError (pyUpper s.log_level))) ∧
    (∀ n, getLoggingLevelAttr (pyUpper s.log_level) = some n →
      startProcess env envFile
        = Except.ok { title := "Pixie AI Service", version := "0.1.0", settings := s }) := by
  constructor
  · intro hn
    simp [startProcess, h, setupLogging, hn]
  · intro n hn
    simp [startProcess, h, setupLogging, hn]

/-- Witness for C10: `LOG_LEVEL=verbose` loads successfully but aborts the
logging setup with `AttributeError` on `"VERBOSE"`. -/
theorem invalid_log_level_aborts_witness :
    startProcess [("LOG_LEVEL", "verbose")] []
      = Except.error (StartupFailure.attributeError (pyUpper "verbose")) :=
  (invalid_log_level_aborts [("LOG_LEVEL", "verbose")] []
      { defaultSettings with log_level := "verbose" } rfl).1 rfl

end Pixie
